import Mathlib

/-!
Verification of the catbox-redis caching adapter (`src/lib/index.js`).

The adapter stores JSON-serializable values in a remote key-value store.
On `set`, a value is wrapped in an envelope `{item, stored, ttl}`,
JSON-stringified, LZ4-compressed and written with `psetex`.  On `get`,
the raw bytes are LZ4-decompressed, JSON-parsed and validated before
the envelope is handed back to the caller.

JSON (`JSON.stringify`/`JSON.parse`), LZ4 (`LZ4.encode`/`LZ4.decode`)
and the ioredis client are external collaborators of the repository
(spec section 1 declares them out of scope, used as opaque byte
transforms).  They are embedded here by their contract: a perfect
serialize-compress/decompress-parse round trip on well-formed payloads,
and failure on garbled bytes.  Everything else is translated directly
from the source.
-/

/-- A JSON-serializable JavaScript value: the values `JSON.stringify`
can produce and `JSON.parse` can return.  Objects are ordered field
lists, as in the serialized form. -/
inductive JSValue where
  | null
  | bool (b : Bool)
  | num (n : Int)
  | str (s : String)
  | arr (elements : List JSValue)
  | obj (fields : List (String × JSValue))

/-- JavaScript truthiness of a JSON value: `null`, `false`, `0` and the
empty string are falsy; every other JSON value (including empty arrays
and objects) is truthy.  This is the semantics of `if (!envelope)` and
`if (!envelope.item || !envelope.stored)` in `get` (index.js:146-154). -/
def truthy : JSValue → Bool
  | JSValue.null => false
  | JSValue.bool b => b
  | JSValue.num n => n != 0
  | JSValue.str s => s != ""
  | JSValue.arr _ => true
  | JSValue.obj _ => true

/-- First field with the given name in an object's field list. -/
def lookupField : List (String × JSValue) → String → Option JSValue
  | [], _ => none
  | (k, v) :: rest, name => if k = name then some v else lookupField rest name

/-- JavaScript property access `v.name` on a parsed JSON value: field
lookup on objects; `undefined` (here `none`) on every non-object. -/
def jsProp : JSValue → String → Option JSValue
  | JSValue.obj fields, name => lookupField fields name
  | _, _ => none

/-- Truthiness of `v.name`: `undefined` (missing property or non-object
receiver) is falsy, otherwise the property's own truthiness. -/
def propTruthy (v : JSValue) (name : String) : Bool :=
  match jsProp v name with
  | some x => truthy x
  | none => false

/-- The envelope built by `set` (index.js:169-173):
`{ item: value, stored: Date.now(), ttl }`. -/
def makeEnvelope (value : JSValue) (stored ttl : Int) : JSValue :=
  JSValue.obj [("item", value), ("stored", JSValue.num stored), ("ttl", JSValue.num ttl)]

/-- A raw byte payload held by the store, embedded by the contract of
the external JSON+LZ4 codec: either the well-formed
compressed-serialized form of some JSON value, or bytes on which
`LZ4.decode` or `JSON.parse` fails (the `tag` distinguishes arbitrary
such byte sequences). -/
inductive RawBytes where
  | encoded (v : JSValue)
  | garbled (tag : Nat)

/-- `LZ4.decode` followed by `JSON.parse` (index.js:133-135), by the
external codec's contract: recovers the value from a well-formed
payload, fails (caught by `get`'s try/catch) on anything else. -/
def decompressParse : RawBytes → Option JSValue
  | RawBytes.encoded v => some v
  | RawBytes.garbled _ => none

/-- `set`'s encode path (index.js:180-183): `JSON.stringify` the
envelope, then `LZ4.encode`.  A `JSValue` is a finite tree, so the
cyclic-value throw path of `JSON.stringify` cannot trigger. -/
def encodeEnvelope (value : JSValue) (stored ttl : Int) : RawBytes :=
  RawBytes.encoded (makeEnvelope value stored ttl)

/-- What the store hands to `get`'s `getBuffer` callback
(index.js:119): an error, a falsy/absent result, or raw bytes. -/
inductive StoreReply where
  | fail (e : String)
  | absent
  | bytes (raw : RawBytes)

/-- The single callback invocation `get` performs: `callback(err)`,
`callback(null, null)` (miss) or `callback(null, envelope)`. -/
inductive GetOutcome where
  | err (msg : String)
  | miss
  | found (envelope : JSValue)

/-- Body of `get`'s `getBuffer` callback (index.js:119-157): propagate
store errors, treat a falsy result as a miss, otherwise decompress,
parse and validate.  A decode failure leaves `envelope` null, merged
with a parsed falsy value by `if (!envelope)`; then
`if (!envelope.item || !envelope.stored)` rejects the structure. -/
def getReplyOutcome : StoreReply → GetOutcome
  | StoreReply.fail e => GetOutcome.err e
  | StoreReply.absent => GetOutcome.miss
  | StoreReply.bytes raw =>
    match decompressParse raw with
    | none => GetOutcome.err "Bad envelope content"
    | some envelope =>
      if !truthy envelope then GetOutcome.err "Bad envelope content"
      else if !propTruthy envelope "item" || !propTruthy envelope "stored" then
        GetOutcome.err "Incorrect envelope structure"
      else GetOutcome.found envelope

/-- The ioredis client handle, observed by the adapter only through its
`status` string (index.js:95). -/
structure Client where
  status : String

/-- The settings produced by the constructor's
`Object.assign({}, internals.defaults, options)` (index.js:26).
Optional fields model JS properties that may be `undefined`. -/
structure Settings where
  host : String := "127.0.0.1"
  port : Nat := 6379
  url : Option String := none
  socket : Option String := none
  sentinels : Option (List String) := none
  sentinelName : Option String := none
  password : Option String := none
  database : Option Nat := none
  db : Option Nat := none
  partition : Option String := none

/-- Constructor options; `host` and `port` may be absent, in which case
`internals.defaults` (index.js:16-19) supplies them. -/
structure Options where
  host : Option String := none
  port : Option Nat := none
  url : Option String := none
  socket : Option String := none
  sentinels : Option (List String) := none
  sentinelName : Option String := none
  password : Option String := none
  database : Option Nat := none
  db : Option Nat := none
  partition : Option String := none

/-- `Object.assign({}, internals.defaults, options)` (index.js:26):
every option is taken from `options` when present, with `host` and
`port` falling back to the defaults `127.0.0.1:6379`. -/
def applySettings (options : Options) : Settings :=
  { host := options.host.getD "127.0.0.1",
    port := options.port.getD 6379,
    url := options.url,
    socket := options.socket,
    sentinels := options.sentinels,
    sentinelName := options.sentinelName,
    password := options.password,
    database := options.database,
    db := options.db,
    partition := options.partition }

/-- The Connection object: its settings and the `this.client`
reference (null when not started or after `stop`). -/
structure Connection where
  settings : Settings
  client : Option Client

/-- `stop` (index.js:83-90): when a client exists, remove its
listeners, `quit()` it and clear `this.client`; otherwise do nothing.
Either way the client reference ends up null, and no path throws. -/
def Connection.stop (conn : Connection) : Connection :=
  { conn with client := none }

/-- `isReady` (index.js:93-96): `!!this.client && this.client.status === 'ready'`. -/
def Connection.isReady (conn : Connection) : Bool :=
  match conn.client with
  | none => false
  | some client => client.status == "ready"

/-- `validateSegmentName` (index.js:99-110): an empty name or a name
containing the null character is rejected with the corresponding error
message; `some msg` embeds `new Error(msg)`, `none` embeds `null`. -/
def validateSegmentName (name : String) : Option String :=
  if name == "" then some "Empty string"
  else if name.data.contains '\x00' then some "Includes null character"
  else none

/-- A logical cache key `{segment, id}`. -/
structure CacheKey where
  segment : String
  id : String

/-- `generateKey` (index.js:218-228): push the partition when it is
truthy (a non-empty string), then the segment and id, and join the
parts with `':'`. -/
def generateKey (settings : Settings) (key : CacheKey) : String :=
  let parts : List String :=
    match settings.partition with
    | some p => if p != "" then [p, key.segment, key.id] else [key.segment, key.id]
    | none => [key.segment, key.id]
  String.intercalate ":" parts

/-- `get` (index.js:113-158): with no client, call back with
`Error('Connection not started')`; otherwise the outcome is decided by
the store reply through `getReplyOutcome`.  Every path of the source
invokes the callback exactly once, so the outcome is the one call. -/
def Connection.get (conn : Connection) (reply : StoreReply) : GetOutcome :=
  match conn.client with
  | none => GetOutcome.err "Connection not started"
  | some _ => getReplyOutcome reply

/-- The callback invocations `set` performs (index.js:161-202), as the
list of error arguments passed, in order.  With no client: one call
with `Error('Connection not started')`.  Otherwise the envelope is
encoded (never throws for a `JSValue`, see `encodeEnvelope`) and
`psetex` is issued; its callback runs `if (err) return callback(err);`
and has no success branch, so a successful write produces no call. -/
def Connection.setCalls (conn : Connection) (value : JSValue) (stored ttl : Int)
    (storeErr : Option String) : List (Option String) :=
  match conn.client with
  | none => [some "Connection not started"]
  | some _ =>
    match encodeEnvelope value stored ttl with
    | RawBytes.encoded _ =>
      match storeErr with
      | some e => [some e]
      | none => []
    | RawBytes.garbled _ => []

/-- The callback invocations `drop` performs (index.js:205-215): with
no client, one call with `Error('Connection not started')`; otherwise
`del`'s callback always runs `callback(err)` once. -/
def Connection.dropCalls (conn : Connection) (storeErr : Option String) :
    List (Option String) :=
  match conn.client with
  | none => [some "Connection not started"]
  | some _ => [storeErr]

/-- An event emitted by the underlying client while `start` waits for
the connection (index.js:63-79). -/
inductive StartEvent where
  | error (e : String)
  | ready

/-- The state `start`'s handlers read and write: `self.client`
(whether the ready handler has recorded the client), whether the
one-shot `once('ready')` registration has fired, and the invocations
attempted on the raw completion callback, in order. -/
structure StartState where
  selfClient : Bool
  readySeen : Bool
  calls : List (Option String)

/-- One event delivered to `start`'s handlers (index.js:65-79).
An error invokes the callback (and ends the half-open client) only
while `self.client` is unset; the `once`-registered ready handler runs
at most one time, records the client and invokes the callback. -/
def startStep (s : StartState) : StartEvent → StartState
  | StartEvent.error e =>
    if s.selfClient then s
    else { s with calls := s.calls ++ [some e] }
  | StartEvent.ready =>
    if s.readySeen then s
    else { selfClient := true, readySeen := true, calls := s.calls ++ [none] }

/-- Deliver a sequence of client events to `start`'s handlers,
beginning from the fresh state (no client recorded, nothing called). -/
def runStart (events : List StartEvent) : StartState :=
  events.foldl startStep { selfClient := false, readySeen := false, calls := [] }

/-- `Hoek.once(callback)` (index.js:34): only the first invocation of
the wrapped callback reaches the caller. -/
def onceCalls (calls : List (Option String)) : List (Option String) :=
  calls.take 1

/-- The invocations of `start`'s completion callback actually delivered
for a given event sequence: the attempted calls filtered by the
`Hoek.once` wrapper. -/
def startCallbackCalls (events : List StartEvent) : List (Option String) :=
  onceCalls (runStart events).calls

/-- The client options `start` builds (index.js:43-46):
`{ password, db: database || db }`, with JS `||` falling through on a
falsy (absent or zero) `database`. -/
structure ClientOptions where
  password : Option String
  db : Option Nat

/-- JS truthiness of a possibly-absent numeric option. -/
def numOptTruthy : Option Nat → Bool
  | none => false
  | some n => n != 0

/-- JS truthiness of a possibly-absent string option. -/
def strOptTruthy : Option String → Bool
  | none => false
  | some s => s != ""

/-- Truthiness of `settings.sentinels && settings.sentinels.length`
(index.js:48): defined and non-empty. -/
def sentinelsTruthy : Option (List String) → Bool
  | none => false
  | some l => l.length != 0

/-- The options object of index.js:43-46. -/
def clientOptions (s : Settings) : ClientOptions :=
  { password := s.password,
    db := if numOptTruthy s.database then s.database else s.db }

/-- The `Redis.createClient` invocation `start` makes: which of the
four topology modes, with its arguments. -/
inductive ClientCall where
  | sentinel (sentinels : List String) (sentinelName : Option String) (options : ClientOptions)
  | url (u : String) (options : ClientOptions)
  | socket (path : String) (options : ClientOptions)
  | tcp (port : Nat) (host : String) (options : ClientOptions)

/-- Topology selection in `start` (index.js:48-61): sentinels first
when defined and non-empty, else a truthy url, else a truthy socket
path, else host and port. -/
def createClientCall (s : Settings) : ClientCall :=
  if sentinelsTruthy s.sentinels then
    ClientCall.sentinel (s.sentinels.getD []) s.sentinelName (clientOptions s)
  else if strOptTruthy s.url then
    ClientCall.url (s.url.getD "") (clientOptions s)
  else if strOptTruthy s.socket then
    ClientCall.socket (s.socket.getD "") (clientOptions s)
  else
    ClientCall.tcp s.port s.host (clientOptions s)

/-- The options argument carried by a `Redis.createClient` call. -/
def ClientCall.options : ClientCall → ClientOptions
  | ClientCall.sentinel _ _ o => o
  | ClientCall.url _ o => o
  | ClientCall.socket _ o => o
  | ClientCall.tcp _ _ o => o

/-- Last character of a string, if any. -/
def lastChar (s : String) : Option Char :=
  s.data.reverse.head?

/-! ## Helper lemmas -/

/-- Each handler step only appends to the list of attempted callback
invocations. -/
theorem startStep_calls_append (s : StartState) (ev : StartEvent) :
    ∃ u, (startStep s ev).calls = s.calls ++ u := by
  cases ev with
  | error e =>
    by_cases h : s.selfClient = true
    · exact ⟨[], by simp [startStep, h]⟩
    · exact ⟨[some e], by simp [startStep, h]⟩
  | ready =>
    by_cases h : s.readySeen = true
    · exact ⟨[], by simp [startStep, h]⟩
    · exact ⟨[none], by simp [startStep, h]⟩

/-- Delivering any event sequence only appends to the list of attempted
callback invocations. -/
theorem foldl_startStep_calls_append (events : List StartEvent) (s : StartState) :
    ∃ u, (List.foldl startStep s events).calls = s.calls ++ u := by
  induction events generalizing s with
  | nil => exact ⟨[], (List.append_nil _).symm⟩
  | cons ev rest ih =>
    obtain ⟨u1, h1⟩ := startStep_calls_append s ev
    obtain ⟨u2, h2⟩ := ih (startStep s ev)
    exact ⟨u1 ++ u2, by rw [List.foldl_cons, h2, h1, List.append_assoc]⟩

/-- `stop` is idempotent on the connection state: both applications
leave the settings untouched and the client reference null. -/
theorem stop_stop (conn : Connection) :
    Connection.stop (Connection.stop conn) = Connection.stop conn := rfl

/-! ## Claim theorems -/

/-- C2 (confirmed): for every sequence of error/ready events emitted by
the underlying client during `start`, the `Hoek.once`-wrapped completion
callback is delivered at most once; and when an error event arrives
before any ready event has recorded the client (i.e. the sequence opens
with an error), the callback is delivered exactly once, with that error,
and later error or ready events never re-invoke it. -/
theorem c2_start_callback_exactly_once (events : List StartEvent) :
    (startCallbackCalls events).length ≤ 1 ∧
    ∀ e rest, events = StartEvent.error e :: rest →
      startCallbackCalls events = [some e] := by
  constructor
  · have h := List.length_take 1 (runStart events).calls
    calc (startCallbackCalls events).length
        = min 1 (runStart events).calls.length := h
      _ ≤ 1 := min_le_left _ _
  · intro e rest h
    subst h
    show ((StartEvent.error e :: rest).foldl startStep
      { selfClient := false, readySeen := false, calls := [] }).calls.take 1 = [some e]
    rw [List.foldl_cons]
    have hstep : startStep { selfClient := false, readySeen := false, calls := [] }
        (StartEvent.error e) =
        { selfClient := false, readySeen := false, calls := [some e] } := rfl
    rw [hstep]
    obtain ⟨u, hu⟩ :=
      foldl_startStep_calls_append rest { selfClient := false, readySeen := false, calls := [some e] }
    rw [hu]
    rfl

/-- C2 witness: an error immediately followed by a ready event delivers
the completion callback exactly once, with the error. -/
theorem c2_start_callback_exactly_once_witness :
    startCallbackCalls [StartEvent.error "boom", StartEvent.ready] = [some "boom"] :=
  (c2_start_callback_exactly_once [StartEvent.error "boom", StartEvent.ready]).2
    "boom" [StartEvent.ready] rfl

/-- C3 (code bug): with an active connection and an encodable value,
when the `psetex` store write succeeds (its callback receives no
error), `set` never invokes its completion callback at all — the
source's `psetex` callback body is `if (err) { return callback(err); }`
with no success branch (index.js:197-201).  The claim (and spec)
require a single `callback()` invocation with no error and no result. -/
theorem c3_set_success_never_invokes_callback (s : Settings) (client : Client)
    (value : JSValue) (stored ttl : Int) :
    Connection.setCalls { settings := s, client := some client } value stored ttl none = [] :=
  rfl

/-- C6 (confirmed): `stop` clears the client reference, and every
subsequent `get`, `set` or `drop` call invokes its callback with
`Error('Connection not started')`. -/
theorem c6_operations_after_stop (conn : Connection) (reply : StoreReply)
    (value : JSValue) (stored ttl : Int) (storeErr : Option String) :
    (Connection.stop conn).client = none ∧
    Connection.get (Connection.stop conn) reply = GetOutcome.err "Connection not started" ∧
    Connection.setCalls (Connection.stop conn) value stored ttl storeErr =
      [some "Connection not started"] ∧
    Connection.dropCalls (Connection.stop conn) storeErr = [some "Connection not started"] :=
  ⟨rfl, rfl, rfl, rfl⟩

/-- C9 (confirmed): `stop` is idempotent — any number of repeated
applications equals a single one (its body has no throwing path, it
merely clears the client reference) — and after any `stop` the adapter
reports `isReady() = false`. -/
theorem c9_stop_idempotent (conn : Connection) (n : Nat) :
    Connection.stop (Connection.stop conn) = Connection.stop conn ∧
    Connection.stop^[n] (Connection.stop conn) = Connection.stop conn ∧
    Connection.isReady (Connection.stop conn) = false := by
  refine ⟨rfl, ?_, rfl⟩
  induction n with
  | zero => rfl
  | succ m ih =>
    rw [Function.iterate_succ_apply, stop_stop]
    exact ih

/-- C10 (confirmed): `validateSegmentName` returns null exactly for a
non-empty name without a null character; the empty name yields
`Error('Empty string')` and a name containing a null character yields
`Error('Includes null character')`, with no throwing path. -/
theorem c10_validateSegmentName (name : String) :
    (validateSegmentName name = none ↔
      name ≠ "" ∧ name.data.contains '\x00' = false) ∧
    (name = "" → validateSegmentName name = some "Empty string") ∧
    (name ≠ "" → name.data.contains '\x00' = true →
      validateSegmentName name = some "Includes null character") := by
  cases hb : (name == "") with
  | true =>
    have h : name = "" := by simpa using hb
    subst h
    simp [validateSegmentName]
  | false =>
    have hne : name ≠ "" := by simpa using hb
    cases h2 : name.data.contains '\x00' <;>
      simp [validateSegmentName, hb, h2, hne] <;>
      simpa using h2

/-- C10 witness: concrete evaluations of the three branches. -/
theorem c10_validateSegmentName_witness :
    validateSegmentName "ok" = none ∧
    validateSegmentName "" = some "Empty string" ∧
    validateSegmentName "a\x00b" = some "Includes null character" :=
  ⟨(c10_validateSegmentName "ok").1.mpr ⟨by decide, by decide⟩,
   (c10_validateSegmentName "").2.1 rfl,
   (c10_validateSegmentName "a\x00b").2.2 (by decide) (by decide)⟩

/-- C1 counterexample: the claim fails at the falsy value `0` — the
envelope encodes fine, but `get`'s truthiness check `!envelope.item`
rejects it as `Error('Incorrect envelope structure')` instead of
returning an envelope whose item equals `0`. -/
theorem c1_roundtrip_counterexample :
    getReplyOutcome (StoreReply.bytes (encodeEnvelope (JSValue.num 0) 1 5)) =
      GetOutcome.err "Incorrect envelope structure" ∧
    getReplyOutcome (StoreReply.bytes (encodeEnvelope (JSValue.num 0) 1 5)) ≠
      GetOutcome.found (makeEnvelope (JSValue.num 0) 1 5) := by
  have h : getReplyOutcome (StoreReply.bytes (encodeEnvelope (JSValue.num 0) 1 5)) =
      GetOutcome.err "Incorrect envelope structure" := rfl
  refine ⟨h, ?_⟩
  rw [h]
  simp

/-- C1 (corrected): for every truthy serializable value `v` (falsy
values — `0`, `false`, the empty string, `null` — are rejected by
`get`'s validation), every ttl `t > 0` and every positive stored
timestamp (`Date.now()` is always positive), encoding via `set`'s
envelope construction and decoding via `get`'s decode path yields the
full envelope, whose `item` field is exactly `v` and whose `ttl` field
equals `t`. -/
theorem c1_roundtrip_truthy (v : JSValue) (t now : Int) (ht : 0 < t)
    (hv : truthy v = true) (hnow : 0 < now) :
    getReplyOutcome (StoreReply.bytes (encodeEnvelope v now t)) =
      GetOutcome.found (makeEnvelope v now t) ∧
    jsProp (makeEnvelope v now t) "item" = some v ∧
    jsProp (makeEnvelope v now t) "ttl" = some (JSValue.num t) := by
  have hnow2 : (now != 0) = true := by
    simp only [bne_iff_ne, ne_eq]
    omega
  refine ⟨?_, rfl, rfl⟩
  simp [getReplyOutcome, encodeEnvelope, decompressParse, makeEnvelope, propTruthy,
    jsProp, lookupField, truthy, hv, hnow2]
  exact hv

/-- C1 witness: the round trip at the truthy value `"x"`, stored
timestamp `1`, ttl `5`. -/
theorem c1_roundtrip_truthy_witness :
    (0 : Int) < 5 ∧ truthy (JSValue.str "x") = true ∧ (0 : Int) < 1 ∧
    (getReplyOutcome (StoreReply.bytes (encodeEnvelope (JSValue.str "x") 1 5)) =
      GetOutcome.found (makeEnvelope (JSValue.str "x") 1 5) ∧
    jsProp (makeEnvelope (JSValue.str "x") 1 5) "item" = some (JSValue.str "x") ∧
    jsProp (makeEnvelope (JSValue.str "x") 1 5) "ttl" = some (JSValue.num 5)) :=
  ⟨by decide, by decide, by decide,
   c1_roundtrip_truthy (JSValue.str "x") 5 1 (by decide) (by decide) (by decide)⟩

/-- C4 counterexample: a parsed structure in which both the `item` and
the `stored` field exist is nonetheless rejected as
`Error('Incorrect envelope structure')` when `item` holds the falsy
value `0`, refuting the claimed "if and only if both fields exist". -/
theorem c4_field_presence_counterexample :
    (jsProp (JSValue.obj [("item", JSValue.num 0), ("stored", JSValue.num 1)]) "item").isSome
      = true ∧
    (jsProp (JSValue.obj [("item", JSValue.num 0), ("stored", JSValue.num 1)]) "stored").isSome
      = true ∧
    getReplyOutcome (StoreReply.bytes (RawBytes.encoded
        (JSValue.obj [("item", JSValue.num 0), ("stored", JSValue.num 1)]))) =
      GetOutcome.err "Incorrect envelope structure" :=
  ⟨rfl, rfl, rfl⟩

/-- C4 (corrected): a successfully parsed payload is accepted by `get`'s
validation if and only if the parsed value is truthy and both its
`item` and `stored` properties are truthy — a field that exists but
holds a falsy value is rejected.  A structure with a missing or falsy
field is reported as a corrupt-envelope error ('Bad envelope content'
or 'Incorrect envelope structure'), never as a cache miss. -/
theorem c4_envelope_validation (env : JSValue) :
    (getReplyOutcome (StoreReply.bytes (RawBytes.encoded env)) = GetOutcome.found env ↔
      truthy env = true ∧ propTruthy env "item" = true ∧ propTruthy env "stored" = true) ∧
    ((propTruthy env "item" = false ∨ propTruthy env "stored" = false) →
      getReplyOutcome (StoreReply.bytes (RawBytes.encoded env)) =
        GetOutcome.err "Bad envelope content" ∨
      getReplyOutcome (StoreReply.bytes (RawBytes.encoded env)) =
        GetOutcome.err "Incorrect envelope structure") ∧
    getReplyOutcome (StoreReply.bytes (RawBytes.encoded env)) ≠ GetOutcome.miss := by
  cases h1 : truthy env <;> cases h2 : propTruthy env "item" <;>
    cases h3 : propTruthy env "stored" <;>
    simp [getReplyOutcome, decompressParse, h1, h2, h3]

/-- C4 witness: instantiation at a well-formed envelope. -/
theorem c4_envelope_validation_witness :
    (getReplyOutcome (StoreReply.bytes (RawBytes.encoded (makeEnvelope (JSValue.str "x") 1 5)))
        = GetOutcome.found (makeEnvelope (JSValue.str "x") 1 5) ↔
      truthy (makeEnvelope (JSValue.str "x") 1 5) = true ∧
      propTruthy (makeEnvelope (JSValue.str "x") 1 5) "item" = true ∧
      propTruthy (makeEnvelope (JSValue.str "x") 1 5) "stored" = true) ∧
    ((propTruthy (makeEnvelope (JSValue.str "x") 1 5) "item" = false ∨
      propTruthy (makeEnvelope (JSValue.str "x") 1 5) "stored" = false) →
      getReplyOutcome (StoreReply.bytes (RawBytes.encoded (makeEnvelope (JSValue.str "x") 1 5))) =
        GetOutcome.err "Bad envelope content" ∨
      getReplyOutcome (StoreReply.bytes (RawBytes.encoded (makeEnvelope (JSValue.str "x") 1 5))) =
        GetOutcome.err "Incorrect envelope structure") ∧
    getReplyOutcome (StoreReply.bytes (RawBytes.encoded (makeEnvelope (JSValue.str "x") 1 5)))
      ≠ GetOutcome.miss :=
  c4_envelope_validation (makeEnvelope (JSValue.str "x") 1 5)

/-- C5 (confirmed): on an active connection, an absent store result is
a clean miss (`callback(null, null)`), while bytes that fail
decompression or parsing produce `Error('Bad envelope content')` — an
outcome distinct from the miss — and never a (partial) envelope; the
try/catch makes every decode path total, so no unhandled fault. -/
theorem c5_miss_vs_corruption (s : Settings) (client : Client) (tag : Nat) :
    Connection.get { settings := s, client := some client } StoreReply.absent =
      GetOutcome.miss ∧
    Connection.get { settings := s, client := some client }
        (StoreReply.bytes (RawBytes.garbled tag)) =
      GetOutcome.err "Bad envelope content" ∧
    Connection.get { settings := s, client := some client }
        (StoreReply.bytes (RawBytes.garbled tag)) ≠ GetOutcome.miss ∧
    ∀ env, Connection.get { settings := s, client := some client }
        (StoreReply.bytes (RawBytes.garbled tag)) ≠ GetOutcome.found env := by
  refine ⟨rfl, rfl, ?_, ?_⟩
  · intro h
    exact GetOutcome.noConfusion h
  · intro env h
    exact GetOutcome.noConfusion h

/-- C5 witness: concrete connection, garbled payload tag `0`. -/
theorem c5_miss_vs_corruption_witness :
    Connection.get { settings := {}, client := some { status := "ready" } } StoreReply.absent =
      GetOutcome.miss ∧
    Connection.get { settings := {}, client := some { status := "ready" } }
        (StoreReply.bytes (RawBytes.garbled 0)) =
      GetOutcome.err "Bad envelope content" ∧
    Connection.get { settings := {}, client := some { status := "ready" } }
        (StoreReply.bytes (RawBytes.garbled 0)) ≠ GetOutcome.miss ∧
    ∀ env, Connection.get { settings := {}, client := some { status := "ready" } }
        (StoreReply.bytes (RawBytes.garbled 0)) ≠ GetOutcome.found env :=
  c5_miss_vs_corruption {} { status := "ready" } 0

/-- The characters of the separator string. -/
theorem colon_data : (":" : String).data = [':'] := rfl

/-- `parts.join(':')` on three parts. -/
theorem intercalate_three (a b c : String) :
    String.intercalate ":" [a, b, c] = a ++ ":" ++ b ++ ":" ++ c := rfl

/-- Character data of a generated key under a non-empty partition:
the partition's characters, a separator, then segment, separator, id. -/
theorem generateKey_data_some (p : String) (hp : (p != "") = true) (k : CacheKey)
    (s : Settings) (hs : s.partition = some p) :
    (generateKey s k).data = p.data ++ ':' :: (k.segment.data ++ ':' :: k.id.data) := by
  have h1 : generateKey s k = p ++ ":" ++ k.segment ++ ":" ++ k.id := by
    simp only [generateKey, hs, hp, if_true]
    exact intercalate_three p k.segment k.id
  rw [h1]
  simp [colon_data, List.append_assoc]

/-- C7 (confirmed): `generateKey` is a deterministic function of the
partition setting and the logical key; two distinct non-empty
partitions with the same segment/id give distinct store keys; and the
logical keys `{segment:"a", id:"1"}` and `{segment:"a1", id:""}` give
distinct store keys under any fixed partition setting. -/
theorem c7_generateKey_properties (s : Settings) (k : CacheKey)
    (p1 p2 sg i : String) (h1 : p1 ≠ "") (h2 : p2 ≠ "") (hne : p1 ≠ p2)
    (popt : Option String) :
    generateKey s k = generateKey s k ∧
    generateKey { partition := some p1 } { segment := sg, id := i } ≠
      generateKey { partition := some p2 } { segment := sg, id := i } ∧
    generateKey { partition := popt } { segment := "a", id := "1" } ≠
      generateKey { partition := popt } { segment := "a1", id := "" } := by
  refine ⟨rfl, ?_, ?_⟩
  · intro heq
    have d1 := generateKey_data_some p1 (bne_iff_ne.mpr h1)
      { segment := sg, id := i } { partition := some p1 } rfl
    have d2 := generateKey_data_some p2 (bne_iff_ne.mpr h2)
      { segment := sg, id := i } { partition := some p2 } rfl
    have hd := congrArg String.data heq
    rw [d1, d2] at hd
    exact hne (String.ext (List.append_cancel_right hd))
  · cases popt with
    | none => decide
    | some p =>
      by_cases hp : p = ""
      · subst hp; decide
      · intro heq
        have hpb : (p != "") = true := bne_iff_ne.mpr hp
        have d1 := generateKey_data_some p hpb
          { segment := "a", id := "1" } { partition := some p } rfl
        have d2 := generateKey_data_some p hpb
          { segment := "a1", id := "" } { partition := some p } rfl
        have hd := congrArg String.data heq
        rw [d1, d2] at hd
        exact absurd (List.append_cancel_left hd) (by decide)

/-- C7 witness: partitions `"p"` and `"q"`, and the boundary keys. -/
theorem c7_generateKey_properties_witness :
    generateKey { partition := some "p" } { segment := "a", id := "1" } ≠
      generateKey { partition := some "q" } { segment := "a", id := "1" } ∧
    generateKey { partition := some "p" } { segment := "a", id := "1" } ≠
      generateKey { partition := some "p" } { segment := "a1", id := "" } :=
  ⟨(c7_generateKey_properties {} { segment := "a", id := "1" } "p" "q" "a" "1"
      (by decide) (by decide) (by decide) (some "p")).2.1,
   (c7_generateKey_properties {} { segment := "a", id := "1" } "p" "q" "a" "1"
      (by decide) (by decide) (by decide) (some "p")).2.2⟩

/-- C8 (confirmed): without an external client, `start` selects exactly
one of four topology modes by precedence — a defined non-empty
sentinels list, else a truthy url, else a truthy socket path, else
host and port (defaulting to `127.0.0.1:6379`) — and the options object
carrying password and database index is passed in every mode. -/
theorem c8_topology_modes :
    (∀ s : Settings, sentinelsTruthy s.sentinels = true →
      createClientCall s =
        ClientCall.sentinel (s.sentinels.getD []) s.sentinelName (clientOptions s)) ∧
    (∀ s : Settings, sentinelsTruthy s.sentinels = false → strOptTruthy s.url = true →
      createClientCall s = ClientCall.url (s.url.getD "") (clientOptions s)) ∧
    (∀ s : Settings, sentinelsTruthy s.sentinels = false → strOptTruthy s.url = false →
      strOptTruthy s.socket = true →
      createClientCall s = ClientCall.socket (s.socket.getD "") (clientOptions s)) ∧
    (∀ s : Settings, sentinelsTruthy s.sentinels = false → strOptTruthy s.url = false →
      strOptTruthy s.socket = false →
      createClientCall s = ClientCall.tcp s.port s.host (clientOptions s)) ∧
    (∀ s : Settings, (createClientCall s).options = clientOptions s) ∧
    (∀ o : Options, o.host = none → o.port = none →
      (applySettings o).host = "127.0.0.1" ∧ (applySettings o).port = 6379) := by
  refine ⟨?_, ?_, ?_, ?_, ?_, ?_⟩
  · intro s h; simp [createClientCall, h]
  · intro s h1 h2; simp [createClientCall, h1, h2]
  · intro s h1 h2 h3; simp [createClientCall, h1, h2, h3]
  · intro s h1 h2 h3; simp [createClientCall, h1, h2, h3]
  · intro s
    by_cases h1 : sentinelsTruthy s.sentinels <;>
      by_cases h2 : strOptTruthy s.url <;>
      by_cases h3 : strOptTruthy s.socket <;>
      simp [createClientCall, ClientCall.options, h1, h2, h3]
  · intro o h1 h2; simp [applySettings, h1, h2]

/-- C8 witness: one concrete configuration per topology mode, plus the
default host and port. -/
theorem c8_topology_modes_witness :
    createClientCall { sentinels := some ["10.0.0.1:26379"], sentinelName := some "m" } =
      ClientCall.sentinel ["10.0.0.1:26379"] (some "m") { password := none, db := none } ∧
    createClientCall { url := some "redis://h:7000" } =
      ClientCall.url "redis://h:7000" { password := none, db := none } ∧
    createClientCall { socket := some "/tmp/redis.sock" } =
      ClientCall.socket "/tmp/redis.sock" { password := none, db := none } ∧
    createClientCall {} = ClientCall.tcp 6379 "127.0.0.1" { password := none, db := none } ∧
    (applySettings {}).host = "127.0.0.1" ∧ (applySettings {}).port = 6379 :=
  ⟨c8_topology_modes.1 { sentinels := some ["10.0.0.1:26379"], sentinelName := some "m" } rfl,
   c8_topology_modes.2.1 { url := some "redis://h:7000" } rfl rfl,
   c8_topology_modes.2.2.1 { socket := some "/tmp/redis.sock" } rfl rfl rfl,
   c8_topology_modes.2.2.2.1 {} rfl rfl rfl,
   (c8_topology_modes.2.2.2.2.2 {} rfl rfl).1,
   (c8_topology_modes.2.2.2.2.2 {} rfl rfl).2⟩
